import Mathlib

/-!
Verification of the manage-vault projection calculator and the transaction
manager of the oasis-app repository.

Numeric values in the source are `bignumber.js` BigNumbers: arbitrary-precision
decimals extended with signed infinities and NaN.  We model a BigNumber value
as the type `BN` below: a rational number, `+Infinity`, `-Infinity`, or `NaN`.
Two deliberate idealisations, stated once here:

* `div` is modelled as exact rational division.  bignumber.js rounds quotients
  to `DECIMAL_PLACES` (20) significant decimals; none of the properties below
  depend on that rounding (they concern guard structure, signs and clamping,
  all preserved by rounding).
* bignumber.js carries a sign on zero (`isPositive` is sign-based:
  `new BigNumber(0).isPositive()` is `true`, `new BigNumber(-0).isPositive()`
  is `false`).  Addition and subtraction normalise an exactly-zero result to
  `+0` under the default rounding mode, and every clamp in this module
  returns either such a result or the `+0` constant, so finite zeros are
  modelled as positive: `isPositive` on a finite value is `0 ≤ q`.  The one
  exception is `times`, which carries the product of the operand signs onto
  a zero result (`(+0) × negative = -0`); the single place where an
  `isPositive` guard reads a `times` product directly — the
  `afterLockedCollateralUSD` guards of the collateralization ratios — is
  therefore modelled with the sign-aware `bnTimesIsPositive` below.
-/

/-- A bignumber.js value: finite rational, `+Infinity`, `-Infinity` or `NaN`. -/
inductive BN where
  | fin (q : ℚ)
  | pinf
  | ninf
  | nan
deriving DecidableEq

/-- Negation of a BigNumber value. -/
def bnNeg : BN → BN
  | BN.fin q => BN.fin (-q)
  | BN.pinf => BN.ninf
  | BN.ninf => BN.pinf
  | BN.nan => BN.nan

/-- bignumber.js `plus`: NaN propagates, opposite infinities give NaN. -/
def bnAdd : BN → BN → BN
  | BN.nan, _ => BN.nan
  | _, BN.nan => BN.nan
  | BN.pinf, BN.ninf => BN.nan
  | BN.ninf, BN.pinf => BN.nan
  | BN.pinf, _ => BN.pinf
  | _, BN.pinf => BN.pinf
  | BN.ninf, _ => BN.ninf
  | _, BN.ninf => BN.ninf
  | BN.fin a, BN.fin b => BN.fin (a + b)

/-- bignumber.js `minus`, as addition of the negation. -/
def bnSub (a b : BN) : BN := bnAdd a (bnNeg b)

/-- bignumber.js `times`: NaN propagates, zero times an infinity is NaN,
otherwise signs multiply. -/
def bnMul : BN → BN → BN
  | BN.nan, _ => BN.nan
  | _, BN.nan => BN.nan
  | BN.pinf, BN.pinf => BN.pinf
  | BN.pinf, BN.ninf => BN.ninf
  | BN.ninf, BN.pinf => BN.ninf
  | BN.ninf, BN.ninf => BN.pinf
  | BN.pinf, BN.fin b => if b = 0 then BN.nan else if 0 < b then BN.pinf else BN.ninf
  | BN.fin a, BN.pinf => if a = 0 then BN.nan else if 0 < a then BN.pinf else BN.ninf
  | BN.ninf, BN.fin b => if b = 0 then BN.nan else if 0 < b then BN.ninf else BN.pinf
  | BN.fin a, BN.ninf => if a = 0 then BN.nan else if 0 < a then BN.ninf else BN.pinf
  | BN.fin a, BN.fin b => BN.fin (a * b)

/-- bignumber.js `div`: NaN propagates; `x/0` is `NaN` when `x = 0` and a
signed infinity otherwise; a finite value over an infinity is zero; an
infinity over a finite value is a signed infinity; infinity over infinity
is NaN.  Division of finite values is modelled exactly (see module note). -/
def bnDiv : BN → BN → BN
  | BN.nan, _ => BN.nan
  | _, BN.nan => BN.nan
  | BN.fin x, BN.fin y =>
      if y = 0 then
        if x = 0 then BN.nan else if 0 < x then BN.pinf else BN.ninf
      else BN.fin (x / y)
  | BN.fin _, BN.pinf => BN.fin 0
  | BN.fin _, BN.ninf => BN.fin 0
  | BN.pinf, BN.fin y => if 0 ≤ y then BN.pinf else BN.ninf
  | BN.ninf, BN.fin y => if 0 ≤ y then BN.ninf else BN.pinf
  | BN.pinf, BN.pinf => BN.nan
  | BN.pinf, BN.ninf => BN.nan
  | BN.ninf, BN.pinf => BN.nan
  | BN.ninf, BN.ninf => BN.nan

/-- bignumber.js `gte`: any comparison against NaN is false; infinities
compare as expected (`Infinity ≥ Infinity` holds). -/
def bnGte : BN → BN → Bool
  | BN.nan, _ => false
  | _, BN.nan => false
  | BN.pinf, _ => true
  | BN.fin _, BN.pinf => false
  | BN.ninf, BN.ninf => true
  | BN.ninf, _ => false
  | BN.fin _, BN.ninf => true
  | BN.fin a, BN.fin b => decide (b ≤ a)

/-- bignumber.js `gt`: any comparison against NaN is false. -/
def bnGt : BN → BN → Bool
  | BN.nan, _ => false
  | _, BN.nan => false
  | BN.pinf, BN.pinf => false
  | BN.pinf, _ => true
  | BN.fin _, BN.pinf => false
  | BN.ninf, _ => false
  | BN.fin _, BN.ninf => true
  | BN.fin a, BN.fin b => decide (b < a)

/-- bignumber.js `lt`: any comparison against NaN is false. -/
def bnLt (a b : BN) : Bool := bnGt b a

/-- bignumber.js `isNaN`. -/
def bnIsNaN : BN → Bool
  | BN.nan => true
  | _ => false

/-- bignumber.js `isFinite`: true exactly on finite values. -/
def bnIsFinite : BN → Bool
  | BN.fin _ => true
  | _ => false

/-- bignumber.js `isPositive`: sign-based, so `+Infinity` is positive and a
(positive) finite zero is positive; NaN is not positive.  See module note. -/
def bnIsPositive : BN → Bool
  | BN.fin q => decide (0 ≤ q)
  | BN.pinf => true
  | BN.ninf => false
  | BN.nan => false

/-- `BigNumber.minimum` of two values: NaN if either argument is NaN,
otherwise the smaller argument. -/
def bnMin (a b : BN) : BN :=
  if bnIsNaN a || bnIsNaN b then BN.nan
  else if bnLt a b then a else b

/-- The constant `zero` helper of the source (`new BigNumber(0)`). -/
def bnZero : BN := BN.fin 0

/-- `isPositive` of a `times` product of two finite values whose own zeros
are positive zeros: bignumber.js multiplies the operand signs
(`y.s = xs * ys`), also onto a zero result, and `isPositive` reads only that
sign, so the product is positive exactly when the operand signs agree. -/
def bnTimesIsPositive (a b : ℚ) : Bool :=
  decide (0 ≤ a) == decide (0 ≤ b)

/-- `PAYBACK_ALL_BOUND = new BigNumber('0.01')`: rounding tolerance for the
"pay back everything" intent. -/
def PAYBACK_ALL_BOUND : ℚ := 1 / 100

/-- The slice of `ManageVaultState` consumed by `applyManageVaultCalculations`:
the four optional user-entered amounts, wallet balances (`BalanceInfo`), risk
parameters (`IlkData`), the two oracle prices (`PriceInfo`) and the vault
snapshot (`Vault`).  All numeric inputs are finite decimals, modelled as `ℚ`;
the optional amounts are `Option ℚ` (a set amount is truthy in the source even
when its value is zero, matching `Option.isSome`). -/
structure ManageVaultState where
  depositAmount : Option ℚ
  withdrawAmount : Option ℚ
  generateAmount : Option ℚ
  paybackAmount : Option ℚ
  collateralBalance : ℚ
  daiBalance : ℚ
  liquidationRatio : ℚ
  ilkDebtAvailable : ℚ
  currentCollateralPrice : ℚ
  nextCollateralPrice : ℚ
  lockedCollateral : ℚ
  debt : ℚ
  debtOffset : ℚ

/-- `determineShouldPaybackAll`: `debt.isPositive() &&
daiBalance.gte(debt.plus(debtOffset)) && !!(paybackAmount &&
paybackAmount.plus(PAYBACK_ALL_BOUND).gte(debt) && !paybackAmount.gt(debt))`.
`debt.isPositive()` is the sign-based bignumber.js predicate (true at zero). -/
def determineShouldPaybackAll (paybackAmount : Option ℚ)
    (debt debtOffset daiBalance : ℚ) : Bool :=
  bnIsPositive (BN.fin debt) &&
  bnGte (BN.fin daiBalance) (BN.fin (debt + debtOffset)) &&
  (match paybackAmount with
   | some p =>
       bnGte (BN.fin (p + PAYBACK_ALL_BOUND)) (BN.fin debt) && !bnGt (BN.fin p) (BN.fin debt)
   | none => false)

/-- `calculateAfterLockedCollateral`: `locked + deposit` when a deposit amount
is set (the deposit branch wins when both are set), else `locked - withdraw`
when a withdraw amount is set, else `locked`; clamped at zero. -/
def calculateAfterLockedCollateral (lockedCollateral : ℚ)
    (depositAmount withdrawAmount : Option ℚ) : ℚ :=
  let amount :=
    match depositAmount with
    | some d => lockedCollateral + d
    | none =>
        match withdrawAmount with
        | some w => lockedCollateral - w
        | none => lockedCollateral
  if 0 ≤ amount then amount else 0

/-- `calculateAfterDebt`: zero when `shouldPaybackAll`; else `debt + generate`
when a generate amount is set (the generate branch wins when both are set),
else `debt - payback` when a payback amount is set, else `debt`; clamped at
zero. -/
def calculateAfterDebt (shouldPaybackAll : Bool)
    (generateAmount paybackAmount : Option ℚ) (debt : ℚ) : ℚ :=
  if shouldPaybackAll then 0
  else
    let amount :=
      match generateAmount with
      | some g => debt + g
      | none =>
          match paybackAmount with
          | some p => debt - p
          | none => debt
    if 0 ≤ amount then amount else 0

/-- `calculateAfterBackingCollateral`: zero when `!afterDebt.isPositive()`
(sign-based, so a zero `afterDebt` passes the guard), else
`afterDebt.times(liquidationRatio).div(price)`. -/
def calculateAfterBackingCollateral (afterDebt liquidationRatio price : ℚ) : BN :=
  if !bnIsPositive (BN.fin afterDebt) then bnZero
  else bnDiv (bnMul (BN.fin afterDebt) (BN.fin liquidationRatio)) (BN.fin price)

/-- `calculateAfterFreeCollateral`: `lockedCollateral.minus(backingCollateral)`
clamped at zero via `amount.gte(zero) ? amount : zero`. -/
def calculateAfterFreeCollateral (lockedCollateral : ℚ) (backingCollateral : BN) : BN :=
  let amount := bnSub (BN.fin lockedCollateral) backingCollateral
  if bnGte amount bnZero then amount else bnZero

/-- `calculateMaxWithdrawAmount`: recomputes the after-payback debt (no
generate amount is passed), adds `debtOffset` when that debt is sign-positive,
and takes the free collateral left over the corresponding backing
collateral. -/
def calculateMaxWithdrawAmount (paybackAmount : Option ℚ) (shouldPaybackAll : Bool)
    (lockedCollateral debt debtOffset liquidationRatio price : ℚ) : BN :=
  let afterDebt := calculateAfterDebt shouldPaybackAll none paybackAmount debt
  let afterDebtWithOffset :=
    if bnIsPositive (BN.fin afterDebt) then afterDebt + debtOffset else afterDebt
  let backingCollateral :=
    calculateAfterBackingCollateral afterDebtWithOffset liquidationRatio price
  calculateAfterFreeCollateral lockedCollateral backingCollateral

/-- `calculateDaiYieldFromCollateral`:
`daiYield = collateral.times(price).div(liquidationRatio).minus(debt)`;
zero when `!daiYield.isPositive()`; when `daiYield.gt(ilkDebtAvailable)`, the
yield degrades to `ilkDebtAvailable + (payback ?? 0) - (generate ?? 0)`
clamped at zero when `ilkDebtAvailable.isPositive()` (sign-based, true at
zero) and to zero otherwise; else `daiYield` itself. -/
def calculateDaiYieldFromCollateral (debt liquidationRatio : ℚ)
    (generateAmount paybackAmount : Option ℚ)
    (price collateral ilkDebtAvailable : ℚ) : BN :=
  let daiYield :=
    bnSub (bnDiv (bnMul (BN.fin collateral) (BN.fin price)) (BN.fin liquidationRatio))
      (BN.fin debt)
  if !bnIsPositive daiYield then bnZero
  else if bnGt daiYield (BN.fin ilkDebtAvailable) then
    if bnIsPositive (BN.fin ilkDebtAvailable) then
      let amount :=
        ilkDebtAvailable + (paybackAmount.getD 0) - (generateAmount.getD 0)
      if 0 ≤ amount then BN.fin amount else bnZero
    else bnZero
  else daiYield

/-- `calculateMaxGenerateAmount`: the dai yield of the post-deposit collateral
against `debt + debtOffset`; no payback amount is passed through. -/
def calculateMaxGenerateAmount (depositAmount generateAmount : Option ℚ)
    (debt debtOffset lockedCollateral liquidationRatio price ilkDebtAvailable : ℚ) : BN :=
  let afterLockedCollateral :=
    calculateAfterLockedCollateral lockedCollateral depositAmount none
  calculateDaiYieldFromCollateral (debt + debtOffset) liquidationRatio
    generateAmount none price afterLockedCollateral ilkDebtAvailable

/-- The projection record produced by `applyManageVaultCalculations`
(the `ManageVaultCalculations` interface of the source). -/
structure ManageVaultCalculations where
  maxDepositAmount : BN
  maxDepositAmountUSD : BN
  maxWithdrawAmountAtCurrentPrice : BN
  maxWithdrawAmountAtNextPrice : BN
  maxWithdrawAmount : BN
  maxWithdrawAmountUSD : BN
  maxGenerateAmount : BN
  maxGenerateAmountAtCurrentPrice : BN
  maxGenerateAmountAtNextPrice : BN
  maxPaybackAmount : BN
  daiYieldFromTotalCollateral : BN
  daiYieldFromTotalCollateralAtNextPrice : BN
  afterDebt : BN
  afterLiquidationPrice : BN
  afterCollateralizationRatio : BN
  afterCollateralizationRatioAtNextPrice : BN
  afterFreeCollateral : BN
  afterFreeCollateralAtNextPrice : BN
  afterBackingCollateral : BN
  afterBackingCollateralAtNextPrice : BN
  afterLockedCollateral : BN
  shouldPaybackAll : Bool
deriving DecidableEq

/-- `applyManageVaultCalculations`, composed exactly as in the source. -/
def applyManageVaultCalculations (state : ManageVaultState) : ManageVaultCalculations :=
  let shouldPaybackAll :=
    determineShouldPaybackAll state.paybackAmount state.debt state.debtOffset state.daiBalance
  let afterLockedCollateral :=
    calculateAfterLockedCollateral state.lockedCollateral state.depositAmount
      state.withdrawAmount
  let afterLockedCollateralUSD := afterLockedCollateral * state.currentCollateralPrice
  let afterLockedCollateralUSDAtNextPrice := afterLockedCollateral * state.nextCollateralPrice
  let afterDebt :=
    calculateAfterDebt shouldPaybackAll state.generateAmount state.paybackAmount state.debt
  let afterBackingCollateral :=
    calculateAfterBackingCollateral afterDebt state.liquidationRatio
      state.currentCollateralPrice
  let afterBackingCollateralAtNextPrice :=
    calculateAfterBackingCollateral afterDebt state.liquidationRatio
      state.nextCollateralPrice
  let afterFreeCollateral :=
    calculateAfterFreeCollateral afterLockedCollateral afterBackingCollateral
  let afterFreeCollateralAtNextPrice :=
    calculateAfterFreeCollateral afterLockedCollateral afterBackingCollateralAtNextPrice
  let maxWithdrawAmountAtCurrentPrice :=
    calculateMaxWithdrawAmount state.paybackAmount shouldPaybackAll state.lockedCollateral
      state.debt state.debtOffset state.liquidationRatio state.currentCollateralPrice
  let maxWithdrawAmountAtNextPrice :=
    calculateMaxWithdrawAmount state.paybackAmount shouldPaybackAll state.lockedCollateral
      state.debt state.debtOffset state.liquidationRatio state.nextCollateralPrice
  let maxWithdrawAmount := bnMin maxWithdrawAmountAtCurrentPrice maxWithdrawAmountAtNextPrice
  let maxWithdrawAmountUSD := bnMul maxWithdrawAmount (BN.fin state.currentCollateralPrice)
  let maxDepositAmount := BN.fin state.collateralBalance
  let maxDepositAmountUSD := BN.fin (state.collateralBalance * state.currentCollateralPrice)
  let daiYieldFromTotalCollateral :=
    calculateDaiYieldFromCollateral afterDebt state.liquidationRatio state.generateAmount
      state.paybackAmount state.currentCollateralPrice afterLockedCollateral
      state.ilkDebtAvailable
  let daiYieldFromTotalCollateralAtNextPrice :=
    calculateDaiYieldFromCollateral afterDebt state.liquidationRatio state.generateAmount
      state.paybackAmount state.nextCollateralPrice afterLockedCollateral
      state.ilkDebtAvailable
  let maxGenerateAmountAtCurrentPrice :=
    calculateMaxGenerateAmount state.depositAmount state.generateAmount state.debt
      state.debtOffset state.lockedCollateral state.liquidationRatio
      state.currentCollateralPrice state.ilkDebtAvailable
  let maxGenerateAmountAtNextPrice :=
    calculateMaxGenerateAmount state.depositAmount state.generateAmount state.debt
      state.debtOffset state.lockedCollateral state.liquidationRatio
      state.nextCollateralPrice state.ilkDebtAvailable
  let maxGenerateAmount := bnMin maxGenerateAmountAtCurrentPrice maxGenerateAmountAtNextPrice
  let maxPaybackAmount :=
    if state.daiBalance < state.debt then BN.fin state.daiBalance else BN.fin state.debt
  let afterCollateralizationRatio :=
    if bnTimesIsPositive afterLockedCollateral state.currentCollateralPrice &&
        bnIsPositive (BN.fin afterDebt) then
      bnDiv (BN.fin afterLockedCollateralUSD) (BN.fin afterDebt)
    else bnZero
  let afterCollateralizationRatioAtNextPrice :=
    if bnTimesIsPositive afterLockedCollateral state.nextCollateralPrice &&
        bnIsPositive (BN.fin afterDebt) then
      bnDiv (BN.fin afterLockedCollateralUSDAtNextPrice) (BN.fin afterDebt)
    else bnZero
  let afterLiquidationPrice :=
    if bnIsPositive (BN.fin afterDebt) && bnIsPositive (BN.fin afterLockedCollateral) then
      bnDiv (bnMul (BN.fin afterDebt) (BN.fin state.liquidationRatio))
        (BN.fin afterLockedCollateral)
    else bnZero
  { maxDepositAmount := maxDepositAmount
    maxDepositAmountUSD := maxDepositAmountUSD
    maxWithdrawAmountAtCurrentPrice := maxWithdrawAmountAtCurrentPrice
    maxWithdrawAmountAtNextPrice := maxWithdrawAmountAtNextPrice
    maxWithdrawAmount := maxWithdrawAmount
    maxWithdrawAmountUSD := maxWithdrawAmountUSD
    maxGenerateAmount := maxGenerateAmount
    maxGenerateAmountAtCurrentPrice := maxGenerateAmountAtCurrentPrice
    maxGenerateAmountAtNextPrice := maxGenerateAmountAtNextPrice
    maxPaybackAmount := maxPaybackAmount
    daiYieldFromTotalCollateral := daiYieldFromTotalCollateral
    daiYieldFromTotalCollateralAtNextPrice := daiYieldFromTotalCollateralAtNextPrice
    afterDebt := BN.fin afterDebt
    afterLiquidationPrice := afterLiquidationPrice
    afterCollateralizationRatio := afterCollateralizationRatio
    afterCollateralizationRatioAtNextPrice := afterCollateralizationRatioAtNextPrice
    afterFreeCollateral := afterFreeCollateral
    afterFreeCollateralAtNextPrice := afterFreeCollateralAtNextPrice
    afterBackingCollateral := afterBackingCollateral
    afterBackingCollateralAtNextPrice := afterBackingCollateralAtNextPrice
    afterLockedCollateral := BN.fin afterLockedCollateral
    shouldPaybackAll := shouldPaybackAll }

/-- Specification-side formula for the per-price withdraw bound, written from
the claim's wording: the free collateral left after backing a debt figure
inflated by `debtOffset` (the after-payback debt plus `debtOffset`) at the
liquidation ratio and the given price, clamped at zero.  The after-payback
debt is the spec's step 3 with only the payback amount: zero when paying back
all, else `debt - payback` (or `debt`), clamped at zero. -/
def specMaxWithdrawAmount (paybackAmount : Option ℚ) (shouldPaybackAll : Bool)
    (lockedCollateral debt debtOffset liquidationRatio price : ℚ) : BN :=
  let afterPaybackDebt :=
    if shouldPaybackAll then 0 else max (debt - (paybackAmount.getD 0)) 0
  let inflatedDebt := afterPaybackDebt + debtOffset
  let backing :=
    bnDiv (bnMul (BN.fin inflatedDebt) (BN.fin liquidationRatio)) (BN.fin price)
  let free := bnSub (BN.fin lockedCollateral) backing
  if bnGte free bnZero then free else bnZero

/-- Specification-side formula for the dai yield, written from the (amended)
claim's wording: `collateral * price / liquidationRatio - debt`, clamped to
zero if that is not positive; when the uncapped yield exceeds
`ilkDebtAvailable`, it degrades to `ilkDebtAvailable + payback - generate`
clamped at zero if `ilkDebtAvailable` is non-negative and to zero if
`ilkDebtAvailable` is negative. -/
def specDaiYieldFromCollateral (debt liquidationRatio : ℚ)
    (generateAmount paybackAmount : Option ℚ)
    (price collateral ilkDebtAvailable : ℚ) : BN :=
  let uncapped :=
    bnSub (bnDiv (bnMul (BN.fin collateral) (BN.fin price)) (BN.fin liquidationRatio))
      (BN.fin debt)
  if !bnGt uncapped bnZero then bnZero
  else if bnGt uncapped (BN.fin ilkDebtAvailable) then
    if 0 ≤ ilkDebtAvailable then
      BN.fin (max (ilkDebtAvailable + (paybackAmount.getD 0) - (generateAmount.getD 0)) 0)
    else bnZero
  else uncapped

/-! ## Transaction manager

The transaction manager merges blockchain transactions and fiat on-ramp
orders into `TxMgrTransaction` values and selects at most one notification
transaction.  We model a `TxMgrTransaction` by its kind, lifecycle status and
`lastChange` timestamp (in milliseconds, as `ℤ`); the `id` and raw payload
are not consulted by `compareTransactions` or `filterTransactions` and are
omitted.  `moment(a) < moment(b).add(10, 'seconds')` becomes
`a < b + 10000`. -/

/-- The four transaction kinds of `TxMgrTransaction`. -/
inductive TxKind where
  | blockchain
  | wyre
  | moonpay
  | latamex
deriving DecidableEq

/-- The union of lifecycle statuses handled by `filterTransactions`: the
blockchain `TxStatus` values of `@oasisdex/transactions` and the string
statuses of the on-ramp orders; `other` stands for any status not named in
the `switch`. -/
inductive TxSt where
  | initialized
  | waitingForApproval
  | pending
  | propagating
  | waitingForConfirmation
  | accepted
  | completed
  | complete
  | success
  | rejected
  | expired
  | incomplete
  | failed
  | cancelledByTheUser
  | error
  | failure
  | other
deriving DecidableEq

/-- A transaction as seen by the transaction manager. -/
structure TxMgrTransaction where
  kind : TxKind
  status : TxSt
  lastChange : ℤ
deriving DecidableEq

/-- `isTxDone`: a blockchain transaction is done when `isDone(raw)` holds —
per the `@oasisdex/transactions` lifecycle the terminal statuses are
`Success`, `Error`, `Failure` and `CancelledByTheUser` — and an on-ramp
transaction is done when its status is `complete` or `failed`. -/
def isTxDone (tr : TxMgrTransaction) : Bool :=
  (tr.kind == TxKind.blockchain &&
    (tr.status == TxSt.success || tr.status == TxSt.error ||
     tr.status == TxSt.failure || tr.status == TxSt.cancelledByTheUser)) ||
  ((tr.kind == TxKind.wyre || tr.kind == TxKind.moonpay || tr.kind == TxKind.latamex) &&
    (tr.status == TxSt.complete || tr.status == TxSt.failed))

/-- `compareTransactions`: equal done-ness compares by
`t2.lastChange - t1.lastChange`; a done transaction sorts after a not-done
one; the final `throw new Error('Should not get here!')` is modelled as
`Except.error ()`. -/
def compareTransactions (t1 t2 : TxMgrTransaction) : Except Unit ℤ :=
  let t1Done := isTxDone t1
  let t2Done := isTxDone t2
  if t1Done == t2Done then Except.ok (t2.lastChange - t1.lastChange)
  else if t1Done && !t2Done then Except.ok 1
  else if !t1Done && t2Done then Except.ok (-1)
  else Except.error ()

/-- Statuses routed to `signTransactions` (awaiting signature). -/
def isSignStatus : TxSt → Bool
  | TxSt.initialized => true
  | TxSt.waitingForApproval => true
  | _ => false

/-- Statuses routed to `submittedTransactions`. -/
def isSubmittedStatus : TxSt → Bool
  | TxSt.pending => true
  | TxSt.propagating => true
  | TxSt.waitingForConfirmation => true
  | _ => false

/-- Statuses routed to `successTransactions`. -/
def isSuccessStatus : TxSt → Bool
  | TxSt.accepted => true
  | TxSt.completed => true
  | TxSt.complete => true
  | TxSt.success => true
  | _ => false

/-- Statuses routed to `errorTransactions`. -/
def isErrorStatus : TxSt → Bool
  | TxSt.rejected => true
  | TxSt.expired => true
  | TxSt.incomplete => true
  | TxSt.failed => true
  | TxSt.cancelledByTheUser => true
  | TxSt.error => true
  | TxSt.failure => true
  | _ => false

/-- The `signTransactions` bucket, in input order. -/
def signTransactionsOf (txs : List TxMgrTransaction) : List TxMgrTransaction :=
  txs.filter (fun tx => isSignStatus tx.status)

/-- The `submittedTransactions` bucket, in input order. -/
def submittedTransactionsOf (txs : List TxMgrTransaction) : List TxMgrTransaction :=
  txs.filter (fun tx => isSubmittedStatus tx.status)

/-- The `successTransactions` bucket, in input order. -/
def successTransactionsOf (txs : List TxMgrTransaction) : List TxMgrTransaction :=
  txs.filter (fun tx => isSuccessStatus tx.status)

/-- The `errorTransactions` bucket, in input order. -/
def errorTransactionsOf (txs : List TxMgrTransaction) : List TxMgrTransaction :=
  txs.filter (fun tx => isErrorStatus tx.status)

/-- One iteration of the time-based notification loop run over the error
(resp. success) bucket: when nothing is selected yet and the transaction's
10-second window is still open, select it; when something is selected and
this transaction's window has elapsed, reset the selection to `undefined`;
otherwise keep the current selection. -/
def notificationStep (now : ℤ) (acc : Option TxMgrTransaction)
    (tx : TxMgrTransaction) : Option TxMgrTransaction :=
  if acc.isNone && decide (now < tx.lastChange + 10000) then some tx
  else if acc.isSome && decide (tx.lastChange + 10000 < now) then none
  else acc

/-- The time-based notification loop over a bucket, started from
`undefined`. -/
def selectTimedNotification (now : ℤ) (l : List TxMgrTransaction) :
    Option TxMgrTransaction :=
  l.foldl (notificationStep now) none

/-- The record returned by `filterTransactions`; the notification
transaction carries its `withDescription` flag. -/
structure FilterTransactionsResult where
  pendingTransactions : List TxMgrTransaction
  recentTransactions : List TxMgrTransaction
  notificationTransaction : Option (TxMgrTransaction × Bool)
deriving DecidableEq

/-- `filterTransactions`: buckets the transactions by status (in input
order), then determines the notification transaction: the first
awaiting-signature transaction, else the time-based selection over the error
bucket, else over the success bucket, else the first submitted transaction
(with `withDescription` true while its own 10-second window is open). -/
def filterTransactions (now : ℤ) (transactions : List TxMgrTransaction) :
    FilterTransactionsResult :=
  let pendingTransactions :=
    transactions.filter (fun tx => isSignStatus tx.status || isSubmittedStatus tx.status)
  let recentTransactions :=
    transactions.filter (fun tx => isSuccessStatus tx.status || isErrorStatus tx.status)
  let n0 : Option (TxMgrTransaction × Bool) :=
    match signTransactionsOf transactions with
    | t :: _ => some (t, true)
    | [] => none
  let n1 :=
    match n0 with
    | some v => some v
    | none =>
        (selectTimedNotification now (errorTransactionsOf transactions)).map
          (fun t => (t, true))
  let n2 :=
    match n1 with
    | some v => some v
    | none =>
        (selectTimedNotification now (successTransactionsOf transactions)).map
          (fun t => (t, true))
  let n3 :=
    match n2 with
    | some v => some v
    | none =>
        match submittedTransactionsOf transactions with
        | t :: _ => some (t, decide (now < t.lastChange + 10000))
        | [] => none
  { pendingTransactions := pendingTransactions
    recentTransactions := recentTransactions
    notificationTransaction := n3 }

/-! ## Concrete inputs used by witnesses and counterexamples -/

/-- An input state with a negative current price: the backing collateral
projection goes negative. -/
def stateNegPrice : ManageVaultState :=
  { depositAmount := none, withdrawAmount := none, generateAmount := none,
    paybackAmount := none, collateralBalance := 0, daiBalance := 0,
    liquidationRatio := 3/2, ilkDebtAvailable := 0, currentCollateralPrice := -1,
    nextCollateralPrice := 1, lockedCollateral := 0, debt := 100, debtOffset := 0 }

/-- A benign input state: positive prices and ratio, debt 5, collateral 10. -/
def stateBenign : ManageVaultState :=
  { depositAmount := none, withdrawAmount := none, generateAmount := none,
    paybackAmount := none, collateralBalance := 7, daiBalance := 1,
    liquidationRatio := 3/2, ilkDebtAvailable := 1000, currentCollateralPrice := 1,
    nextCollateralPrice := 2, lockedCollateral := 10, debt := 5, debtOffset := 0 }

/-- An input state with a negative `debtOffset`. -/
def stateNegOffset : ManageVaultState :=
  { depositAmount := none, withdrawAmount := none, generateAmount := none,
    paybackAmount := none, collateralBalance := 0, daiBalance := 0,
    liquidationRatio := 1, ilkDebtAvailable := 0, currentCollateralPrice := 1,
    nextCollateralPrice := 1, lockedCollateral := 10, debt := 0, debtOffset := -6 }

/-- A withdraw scenario with a payback amount and a non-negative offset. -/
def stateWithdraw : ManageVaultState :=
  { depositAmount := none, withdrawAmount := none, generateAmount := none,
    paybackAmount := some 1, collateralBalance := 0, daiBalance := 0,
    liquidationRatio := 3/2, ilkDebtAvailable := 100, currentCollateralPrice := 1,
    nextCollateralPrice := 2, lockedCollateral := 10, debt := 5, debtOffset := 1 }

/-- An empty vault: no collateral, no debt, no amounts entered. -/
def stateEmptyVault : ManageVaultState :=
  { depositAmount := none, withdrawAmount := none, generateAmount := none,
    paybackAmount := none, collateralBalance := 0, daiBalance := 0,
    liquidationRatio := 3/2, ilkDebtAvailable := 0, currentCollateralPrice := 1,
    nextCollateralPrice := 1, lockedCollateral := 0, debt := 0, debtOffset := 0 }

/-- A vault with debt but no collateral. -/
def stateNoCollateral : ManageVaultState :=
  { depositAmount := none, withdrawAmount := none, generateAmount := none,
    paybackAmount := none, collateralBalance := 0, daiBalance := 0,
    liquidationRatio := 3/2, ilkDebtAvailable := 0, currentCollateralPrice := 1,
    nextCollateralPrice := 1, lockedCollateral := 0, debt := 100, debtOffset := 0 }

/-- The spec's liquidation-price example: debt 100, ratio 1.5, 200 locked
collateral. -/
def stateLpExample : ManageVaultState :=
  { depositAmount := none, withdrawAmount := none, generateAmount := none,
    paybackAmount := none, collateralBalance := 0, daiBalance := 0,
    liquidationRatio := 3/2, ilkDebtAvailable := 0, currentCollateralPrice := 1,
    nextCollateralPrice := 1, lockedCollateral := 200, debt := 100, debtOffset := 0 }

/-- A vault with collateral 10 and no debt. -/
def stateNoDebt : ManageVaultState :=
  { depositAmount := none, withdrawAmount := none, generateAmount := none,
    paybackAmount := none, collateralBalance := 0, daiBalance := 0,
    liquidationRatio := 3/2, ilkDebtAvailable := 0, currentCollateralPrice := 1,
    nextCollateralPrice := 1, lockedCollateral := 10, debt := 0, debtOffset := 0 }

/-- A state with all four user amounts set at once. -/
def stateAllAmounts : ManageVaultState :=
  { depositAmount := some 2, withdrawAmount := some 3, generateAmount := some 4,
    paybackAmount := some 1, collateralBalance := 0, daiBalance := 0,
    liquidationRatio := 3/2, ilkDebtAvailable := 100, currentCollateralPrice := 1,
    nextCollateralPrice := 1, lockedCollateral := 10, debt := 5, debtOffset := 0 }

/-- A pending (submitted) blockchain transaction, one second old at
`exNow`. -/
def txPending : TxMgrTransaction :=
  { kind := TxKind.blockchain, status := TxSt.waitingForConfirmation, lastChange := 99000 }

/-- A blockchain error transaction five seconds old at `exNow`. -/
def txErrRecent : TxMgrTransaction :=
  { kind := TxKind.blockchain, status := TxSt.error, lastChange := 95000 }

/-- A blockchain failure transaction twenty seconds old at `exNow`. -/
def txErrExpired : TxMgrTransaction :=
  { kind := TxKind.blockchain, status := TxSt.failure, lastChange := 80000 }

/-- The evaluation instant for the concrete transaction scenarios. -/
def exNow : ℤ := 100000

/-! ## Helper lemmas -/

/-- The clamp-at-zero idiom `amount.gte(zero) ? amount : zero` equals
`max amount 0`. -/
lemma ite_nonneg_eq_max (a : ℚ) : (if 0 ≤ a then a else 0) = max a 0 := by
  rcases le_or_lt 0 a with h | h
  · rw [if_pos h, max_eq_left h]
  · rw [if_neg (not_le.mpr h), max_eq_right h.le]

/-- The projected locked collateral is clamped non-negative. -/
lemma calculateAfterLockedCollateral_nonneg (lc : ℚ) (dep wdr : Option ℚ) :
    0 ≤ calculateAfterLockedCollateral lc dep wdr := by
  simp only [calculateAfterLockedCollateral]
  split
  · next h => exact h
  · exact le_rfl

/-- The projected debt is clamped non-negative. -/
lemma calculateAfterDebt_nonneg (spa : Bool) (gen pay : Option ℚ) (debt : ℚ) :
    0 ≤ calculateAfterDebt spa gen pay debt := by
  simp only [calculateAfterDebt]
  split
  · exact le_rfl
  · split
    · next h => exact h
    · exact le_rfl

/-- `bnGte` against zero on a finite value decides `0 ≤ q`. -/
lemma bnGte_fin_zero (q : ℚ) : bnGte (BN.fin q) bnZero = decide (0 ≤ q) := rfl

/-- The free collateral is non-negative whatever the backing collateral. -/
lemma calculateAfterFreeCollateral_gte (lc : ℚ) (b : BN) :
    bnGte (calculateAfterFreeCollateral lc b) bnZero = true := by
  simp only [calculateAfterFreeCollateral]
  split
  · next h => exact h
  · rfl

/-- With a non-negative liquidation ratio and a positive price, the backing
collateral of a non-negative debt is a non-negative finite value. -/
lemma calculateAfterBackingCollateral_eq_of_pos (ad lr p : ℚ) (had : 0 ≤ ad)
    (hp : p ≠ 0) :
    calculateAfterBackingCollateral ad lr p = BN.fin (ad * lr / p) := by
  simp only [calculateAfterBackingCollateral, bnIsPositive, decide_eq_true had,
    Bool.not_true, Bool.false_eq_true, if_false, bnMul, bnDiv, if_neg hp]

/-- With a non-negative ratio and a positive price the backing collateral is
`≥ 0` in the bignumber order. -/
lemma calculateAfterBackingCollateral_gte (ad lr p : ℚ) (had : 0 ≤ ad)
    (hlr : 0 ≤ lr) (hp : 0 < p) :
    bnGte (calculateAfterBackingCollateral ad lr p) bnZero = true := by
  rw [calculateAfterBackingCollateral_eq_of_pos ad lr p had hp.ne', bnGte_fin_zero,
    decide_eq_true_eq]
  exact div_nonneg (mul_nonneg had hlr) hp.le

/-! ## C1: non-negativity of the projected quantities -/

/-- C1 (amended): for every input state with a non-negative liquidation ratio
and positive current and next prices, each projected physical quantity
returned by `applyManageVaultCalculations` — afterLockedCollateral,
afterDebt, afterBackingCollateral, afterFreeCollateral and the at-next-price
variants — is greater than or equal to zero. -/
theorem afterQuantities_nonneg (s : ManageVaultState)
    (hlr : 0 ≤ s.liquidationRatio) (hpc : 0 < s.currentCollateralPrice)
    (hpn : 0 < s.nextCollateralPrice) :
    bnGte (applyManageVaultCalculations s).afterLockedCollateral bnZero = true ∧
    bnGte (applyManageVaultCalculations s).afterDebt bnZero = true ∧
    bnGte (applyManageVaultCalculations s).afterBackingCollateral bnZero = true ∧
    bnGte (applyManageVaultCalculations s).afterBackingCollateralAtNextPrice bnZero = true ∧
    bnGte (applyManageVaultCalculations s).afterFreeCollateral bnZero = true ∧
    bnGte (applyManageVaultCalculations s).afterFreeCollateralAtNextPrice bnZero = true := by
  simp only [applyManageVaultCalculations]
  refine ⟨?_, ?_, ?_, ?_, ?_, ?_⟩
  · rw [bnGte_fin_zero, decide_eq_true_eq]
    exact calculateAfterLockedCollateral_nonneg _ _ _
  · rw [bnGte_fin_zero, decide_eq_true_eq]
    exact calculateAfterDebt_nonneg _ _ _ _
  · exact calculateAfterBackingCollateral_gte _ _ _
      (calculateAfterDebt_nonneg _ _ _ _) hlr hpc
  · exact calculateAfterBackingCollateral_gte _ _ _
      (calculateAfterDebt_nonneg _ _ _ _) hlr hpn
  · exact calculateAfterFreeCollateral_gte _ _
  · exact calculateAfterFreeCollateral_gte _ _

/-- C1 witness: the non-negativity theorem applied to a concrete benign
state. -/
theorem afterQuantities_nonneg_witness :
    (0:ℚ) ≤ stateBenign.liquidationRatio ∧
    ((0:ℚ) < stateBenign.currentCollateralPrice ∧ (0:ℚ) < stateBenign.nextCollateralPrice) ∧
    bnGte (applyManageVaultCalculations stateBenign).afterBackingCollateral bnZero = true := by
  refine ⟨by norm_num [stateBenign], ⟨by norm_num [stateBenign], by norm_num [stateBenign]⟩, ?_⟩
  exact (afterQuantities_nonneg stateBenign (by norm_num [stateBenign])
    (by norm_num [stateBenign]) (by norm_num [stateBenign])).2.2.1

/-- C1 counterexample: with a negative current price (`stateNegPrice`,
debt 100, ratio 1.5, price -1) the returned `afterBackingCollateral` is
`-150`, which is not greater than or equal to zero, so the claim fails as a
statement over every input state. -/
theorem afterBackingCollateral_negative_cex :
    (applyManageVaultCalculations stateNegPrice).afterBackingCollateral = BN.fin (-150) ∧
    bnGte (applyManageVaultCalculations stateNegPrice).afterBackingCollateral bnZero = false := by
  constructor <;>
  · simp only [applyManageVaultCalculations, determineShouldPaybackAll,
      calculateAfterLockedCollateral, calculateAfterDebt, calculateAfterBackingCollateral,
      calculateAfterFreeCollateral, calculateMaxWithdrawAmount, calculateDaiYieldFromCollateral,
      calculateMaxGenerateAmount, bnIsPositive, bnGte, bnGt, bnLt, bnMul, bnDiv, bnAdd, bnSub,
      bnNeg, bnMin, bnZero, bnIsNaN, stateNegPrice, PAYBACK_ALL_BOUND]
    norm_num

/-! ## C2: characterisation of shouldPaybackAll -/

/-- C2 (amended): `shouldPaybackAll` is true iff the debt is non-negative
(bignumber.js sign-based positivity, which holds at zero), the dai balance
covers `debt + debtOffset`, and a payback amount is set with
`payback + PAYBACK_ALL_BOUND ≥ debt` and `payback ≤ debt`. -/
theorem determineShouldPaybackAll_iff (pa : Option ℚ) (debt debtOffset daiBalance : ℚ) :
    determineShouldPaybackAll pa debt debtOffset daiBalance = true ↔
      (0 ≤ debt ∧ debt + debtOffset ≤ daiBalance ∧
        ∃ p, pa = some p ∧ debt ≤ p + PAYBACK_ALL_BOUND ∧ p ≤ debt) := by
  cases pa with
  | none => simp [determineShouldPaybackAll, bnIsPositive, bnGte]
  | some p =>
      simp [determineShouldPaybackAll, bnIsPositive, bnGte, bnGt, not_lt, and_assoc]

/-- C2 counterexample: at `debt = 0`, `debtOffset = 0`, `daiBalance = 0` and
`paybackAmount = some 0` the code returns true although the debt is not
positive, refuting the claimed "debt is positive" conjunct of the iff. -/
theorem determineShouldPaybackAll_zero_debt_cex :
    determineShouldPaybackAll (some 0) 0 0 0 = true ∧ ¬ (0:ℚ) < 0 := by
  constructor
  · simp [determineShouldPaybackAll, bnIsPositive, bnGte, bnGt, PAYBACK_ALL_BOUND]
  · exact lt_irrefl 0

/-! ## C10: precedence of the additive amount in an opposing pair -/

/-- C10: when both amounts of an opposing pair are set, the additive
direction wins: with both deposit and withdraw set, `afterLockedCollateral`
is `lockedCollateral + deposit` clamped at zero; with both generate and
payback set and the computed `shouldPaybackAll` false, `afterDebt` is
`debt + generate` clamped at zero. -/
theorem bothAmounts_precedence :
    (∀ (s : ManageVaultState) (d w : ℚ), s.depositAmount = some d →
        s.withdrawAmount = some w →
        (applyManageVaultCalculations s).afterLockedCollateral =
          BN.fin (max (s.lockedCollateral + d) 0)) ∧
    (∀ (s : ManageVaultState) (g p : ℚ), s.generateAmount = some g →
        s.paybackAmount = some p →
        determineShouldPaybackAll s.paybackAmount s.debt s.debtOffset s.daiBalance = false →
        (applyManageVaultCalculations s).afterDebt = BN.fin (max (s.debt + g) 0)) := by
  constructor
  · intro s d w hd _hw
    simp only [applyManageVaultCalculations, calculateAfterLockedCollateral, hd,
      ite_nonneg_eq_max]
  · intro s g p hg _hp hspa
    simp only [applyManageVaultCalculations, calculateAfterDebt, hg, hspa,
      Bool.false_eq_true, if_false, ite_nonneg_eq_max]

/-- C10 witness: with deposit 2, withdraw 3, generate 4, payback 1 on a vault
with 10 locked and debt 5, the projections follow the additive amounts:
collateral 12 and debt 9. -/
theorem bothAmounts_precedence_witness :
    (applyManageVaultCalculations stateAllAmounts).afterLockedCollateral = BN.fin 12 ∧
    (applyManageVaultCalculations stateAllAmounts).afterDebt = BN.fin 9 := by
  constructor
  · rw [bothAmounts_precedence.1 stateAllAmounts 2 3 rfl rfl]
    norm_num [stateAllAmounts]
  · rw [bothAmounts_precedence.2 stateAllAmounts 4 1 rfl rfl
      (by norm_num [determineShouldPaybackAll, bnIsPositive, bnGte, bnGt, stateAllAmounts,
        PAYBACK_ALL_BOUND])]
    norm_num [stateAllAmounts]

/-! ## C7 and C8: the projected ratios -/

/-- Characterisation of the guarded ratio construction shared by the
collateralization ratios, with the sign-aware product guard: a negative
price turns the guard off (the product's bignumber sign is negative, also on
a zero product), while with a non-negative price the sign-based guard admits
zero operands and a zero divisor reaches the division. -/
lemma ratioExpr_char (aLC p d : ℚ) (haLC : 0 ≤ aLC) (hd : 0 ≤ d) :
    (0 < aLC * p → 0 < d →
      (if bnTimesIsPositive aLC p && bnIsPositive (BN.fin d) then
        bnDiv (BN.fin (aLC * p)) (BN.fin d) else bnZero) = BN.fin (aLC * p / d)) ∧
    (p < 0 → (if bnTimesIsPositive aLC p && bnIsPositive (BN.fin d) then
        bnDiv (BN.fin (aLC * p)) (BN.fin d) else bnZero) = BN.fin 0) ∧
    (0 < aLC * p → d = 0 →
      (if bnTimesIsPositive aLC p && bnIsPositive (BN.fin d) then
        bnDiv (BN.fin (aLC * p)) (BN.fin d) else bnZero) = BN.pinf) ∧
    (0 ≤ p → aLC * p = 0 → 0 < d →
      (if bnTimesIsPositive aLC p && bnIsPositive (BN.fin d) then
        bnDiv (BN.fin (aLC * p)) (BN.fin d) else bnZero) = BN.fin 0) ∧
    (0 ≤ p → aLC * p = 0 → d = 0 →
      (if bnTimesIsPositive aLC p && bnIsPositive (BN.fin d) then
        bnDiv (BN.fin (aLC * p)) (BN.fin d) else bnZero) = BN.nan) := by
  refine ⟨?_, ?_, ?_, ?_, ?_⟩
  · intro hu hdp
    have hp : 0 ≤ p := by nlinarith
    simp [bnTimesIsPositive, bnIsPositive, bnDiv, haLC, hp, hd, hdp.ne']
  · intro hp
    simp [bnTimesIsPositive, bnIsPositive, haLC, not_le.mpr hp, bnZero]
  · intro hu hdz
    subst hdz
    have hp : 0 ≤ p := by nlinarith
    simp [bnTimesIsPositive, bnIsPositive, bnDiv, haLC, hp, hu.ne', hu]
  · intro hp hu hdp
    simp [bnTimesIsPositive, bnIsPositive, bnDiv, haLC, hp, hd, hdp.ne', hu]
  · intro hp hu hdz
    subst hdz
    simp [bnTimesIsPositive, bnIsPositive, bnDiv, haLC, hp, hu]

/-- C8 (amended): `afterCollateralizationRatio` (and the at-next-price
variant) equals the projected locked collateral value in USD divided by
`afterDebt` when both are strictly positive, and zero whenever the price is
negative — including a zero collateral, where bignumber.js `times` produces
a negative zero whose sign-based `isPositive` is false; with a non-negative
price, the sign-based guard admits zero operands, so with zero `afterDebt`
the ratio is `+Infinity` (positive USD value) or `NaN` (zero USD value)
rather than zero. -/
theorem afterCollateralizationRatio_char (s : ManageVaultState) (ad aLC : ℚ)
    (had : ad = calculateAfterDebt
      (determineShouldPaybackAll s.paybackAmount s.debt s.debtOffset s.daiBalance)
      s.generateAmount s.paybackAmount s.debt)
    (haLC : aLC = calculateAfterLockedCollateral s.lockedCollateral s.depositAmount
      s.withdrawAmount) :
    (0 < aLC * s.currentCollateralPrice → 0 < ad →
      (applyManageVaultCalculations s).afterCollateralizationRatio =
        BN.fin (aLC * s.currentCollateralPrice / ad)) ∧
    (s.currentCollateralPrice < 0 →
      (applyManageVaultCalculations s).afterCollateralizationRatio = BN.fin 0) ∧
    (0 < aLC * s.currentCollateralPrice → ad = 0 →
      (applyManageVaultCalculations s).afterCollateralizationRatio = BN.pinf) ∧
    (0 ≤ s.currentCollateralPrice → aLC * s.currentCollateralPrice = 0 → 0 < ad →
      (applyManageVaultCalculations s).afterCollateralizationRatio = BN.fin 0) ∧
    (0 ≤ s.currentCollateralPrice → aLC * s.currentCollateralPrice = 0 → ad = 0 →
      (applyManageVaultCalculations s).afterCollateralizationRatio = BN.nan) ∧
    (0 < aLC * s.nextCollateralPrice → 0 < ad →
      (applyManageVaultCalculations s).afterCollateralizationRatioAtNextPrice =
        BN.fin (aLC * s.nextCollateralPrice / ad)) ∧
    (s.nextCollateralPrice < 0 →
      (applyManageVaultCalculations s).afterCollateralizationRatioAtNextPrice = BN.fin 0) ∧
    (0 < aLC * s.nextCollateralPrice → ad = 0 →
      (applyManageVaultCalculations s).afterCollateralizationRatioAtNextPrice = BN.pinf) ∧
    (0 ≤ s.nextCollateralPrice → aLC * s.nextCollateralPrice = 0 → 0 < ad →
      (applyManageVaultCalculations s).afterCollateralizationRatioAtNextPrice = BN.fin 0) ∧
    (0 ≤ s.nextCollateralPrice → aLC * s.nextCollateralPrice = 0 → ad = 0 →
      (applyManageVaultCalculations s).afterCollateralizationRatioAtNextPrice = BN.nan) := by
  have h0ad : 0 ≤ ad := had ▸ calculateAfterDebt_nonneg _ _ _ _
  have h0aLC : 0 ≤ aLC := haLC ▸ calculateAfterLockedCollateral_nonneg _ _ _
  simp only [applyManageVaultCalculations]
  rw [← had, ← haLC]
  obtain ⟨h1, h2, h3, h4, h5⟩ :=
    ratioExpr_char aLC s.currentCollateralPrice ad h0aLC h0ad
  obtain ⟨g1, g2, g3, g4, g5⟩ :=
    ratioExpr_char aLC s.nextCollateralPrice ad h0aLC h0ad
  exact ⟨h1, h2, h3, h4, h5, g1, g2, g3, g4, g5⟩

/-- C8 witness: on `stateBenign` (collateral 10, debt 5, prices 1 and 2) the
ratios are 2 and 4; on `stateNegPrice` (collateral 0, debt 100, current
price -1) the USD value is a negative zero and the ratio is zero. -/
theorem afterCollateralizationRatio_char_witness :
    (applyManageVaultCalculations stateBenign).afterCollateralizationRatio = BN.fin 2 ∧
    (applyManageVaultCalculations stateBenign).afterCollateralizationRatioAtNextPrice =
      BN.fin 4 ∧
    (applyManageVaultCalculations stateNegPrice).afterCollateralizationRatio = BN.fin 0 := by
  have h := afterCollateralizationRatio_char stateBenign 5 10
    (by norm_num [calculateAfterDebt, determineShouldPaybackAll, bnIsPositive, bnGte, bnGt,
      stateBenign, PAYBACK_ALL_BOUND])
    (by norm_num [calculateAfterLockedCollateral, stateBenign])
  have hneg := afterCollateralizationRatio_char stateNegPrice 100 0
    (by norm_num [calculateAfterDebt, determineShouldPaybackAll, bnIsPositive, bnGte, bnGt,
      stateNegPrice, PAYBACK_ALL_BOUND])
    (by norm_num [calculateAfterLockedCollateral, stateNegPrice])
  refine ⟨?_, ?_, ?_⟩
  · rw [h.1 (by norm_num [stateBenign]) (by norm_num)]
    norm_num [stateBenign]
  · rw [h.2.2.2.2.2.1 (by norm_num [stateBenign]) (by norm_num)]
    norm_num [stateBenign]
  · exact hneg.2.1 (by norm_num [stateNegPrice])

/-- C8 counterexample: on a vault with collateral 10 and debt 0
(`stateNoDebt`) the code returns `+Infinity`, not zero, although `afterDebt`
is zero — refuting "zero whenever afterDebt is zero, regardless of
collateral". -/
theorem afterCollateralizationRatio_infinite_cex :
    (applyManageVaultCalculations stateNoDebt).afterCollateralizationRatio = BN.pinf ∧
    (applyManageVaultCalculations stateNoDebt).afterDebt = BN.fin 0 := by
  constructor <;>
  · simp only [applyManageVaultCalculations, determineShouldPaybackAll,
      calculateAfterLockedCollateral, calculateAfterDebt, calculateAfterBackingCollateral,
      calculateAfterFreeCollateral, calculateMaxWithdrawAmount, calculateDaiYieldFromCollateral,
      calculateMaxGenerateAmount, bnIsPositive, bnTimesIsPositive, bnGte, bnGt, bnLt, bnMul,
      bnDiv, bnAdd, bnSub, bnNeg, bnMin, bnZero, bnIsNaN, stateNoDebt, PAYBACK_ALL_BOUND]
    norm_num

/-- C7 (amended): `afterLiquidationPrice` equals
`afterDebt * liquidationRatio / afterLockedCollateral` whenever
`afterLockedCollateral` is positive (in particular it is zero when
`afterDebt` is zero and the collateral positive); because the sign-based
guard admits a zero `afterLockedCollateral`, the division still runs there,
yielding `+Infinity`, `NaN` or `-Infinity` according to the sign of
`afterDebt * liquidationRatio` rather than the claimed zero. -/
theorem afterLiquidationPrice_char (s : ManageVaultState) (ad aLC : ℚ)
    (had : ad = calculateAfterDebt
      (determineShouldPaybackAll s.paybackAmount s.debt s.debtOffset s.daiBalance)
      s.generateAmount s.paybackAmount s.debt)
    (haLC : aLC = calculateAfterLockedCollateral s.lockedCollateral s.depositAmount
      s.withdrawAmount) :
    (0 < aLC → (applyManageVaultCalculations s).afterLiquidationPrice =
      BN.fin (ad * s.liquidationRatio / aLC)) ∧
    (aLC = 0 → 0 < ad * s.liquidationRatio →
      (applyManageVaultCalculations s).afterLiquidationPrice = BN.pinf) ∧
    (aLC = 0 → ad * s.liquidationRatio = 0 →
      (applyManageVaultCalculations s).afterLiquidationPrice = BN.nan) ∧
    (aLC = 0 → ad * s.liquidationRatio < 0 →
      (applyManageVaultCalculations s).afterLiquidationPrice = BN.ninf) := by
  have h0ad : 0 ≤ ad := had ▸ calculateAfterDebt_nonneg _ _ _ _
  have h0aLC : 0 ≤ aLC := haLC ▸ calculateAfterLockedCollateral_nonneg _ _ _
  simp only [applyManageVaultCalculations]
  rw [← had, ← haLC]
  refine ⟨?_, ?_, ?_, ?_⟩
  · intro h
    simp [bnIsPositive, bnMul, bnDiv, h0ad, h0aLC, h.ne']
  · intro hz hnum
    subst hz
    simp [bnIsPositive, bnMul, bnDiv, h0ad, hnum, hnum.ne']
  · intro hz hnum
    subst hz
    simp [bnIsPositive, bnMul, bnDiv, h0ad, hnum]
  · intro hz hnum
    subst hz
    simp [bnIsPositive, bnMul, bnDiv, h0ad, hnum.ne, not_lt.mpr hnum.le]

/-- C7 witness: the spec's example — debt 100, liquidation ratio 1.5, locked
collateral 200, price 1 — gives a liquidation price of 0.75. -/
theorem afterLiquidationPrice_char_witness :
    (applyManageVaultCalculations stateLpExample).afterLiquidationPrice = BN.fin (3/4) := by
  have h := (afterLiquidationPrice_char stateLpExample 100 200
    (by norm_num [calculateAfterDebt, determineShouldPaybackAll, bnIsPositive, bnGte, bnGt,
      stateLpExample, PAYBACK_ALL_BOUND])
    (by norm_num [calculateAfterLockedCollateral, stateLpExample])).1 (by norm_num)
  rw [h]
  norm_num [stateLpExample]

/-- C7 counterexample: on a vault with debt 100 and no collateral
(`stateNoCollateral`), `afterLockedCollateral` is zero (non-positive per the
claim) yet the code returns `+Infinity`, not zero. -/
theorem afterLiquidationPrice_infinite_cex :
    (applyManageVaultCalculations stateNoCollateral).afterLiquidationPrice = BN.pinf ∧
    (applyManageVaultCalculations stateNoCollateral).afterLockedCollateral = BN.fin 0 := by
  constructor <;>
  · simp only [applyManageVaultCalculations, determineShouldPaybackAll,
      calculateAfterLockedCollateral, calculateAfterDebt, calculateAfterBackingCollateral,
      calculateAfterFreeCollateral, calculateMaxWithdrawAmount, calculateDaiYieldFromCollateral,
      calculateMaxGenerateAmount, bnIsPositive, bnGte, bnGt, bnLt, bnMul, bnDiv, bnAdd, bnSub,
      bnNeg, bnMin, bnZero, bnIsNaN, stateNoCollateral, PAYBACK_ALL_BOUND]
    norm_num

/-! ## C5: the dai yield -/

/-- C5 (amended): `calculateDaiYieldFromCollateral` equals, for every input,
the spec-side formula `collateral * price / liquidationRatio - debt` clamped
to zero if not positive, degraded - when the uncapped yield exceeds
`ilkDebtAvailable` - to `ilkDebtAvailable + payback - generate` clamped at
zero if `ilkDebtAvailable` is non-negative (the sign-based guard accepts a
zero ceiling) and to zero if `ilkDebtAvailable` is negative. -/
theorem daiYieldFromCollateral_spec_eq (debt lr : ℚ) (gen pay : Option ℚ)
    (price c ida : ℚ) :
    calculateDaiYieldFromCollateral debt lr gen pay price c ida =
      specDaiYieldFromCollateral debt lr gen pay price c ida := by
  simp only [calculateDaiYieldFromCollateral, specDaiYieldFromCollateral]
  generalize bnSub (bnDiv (bnMul (BN.fin c) (BN.fin price)) (BN.fin lr)) (BN.fin debt) = y
  rcases y with q | _ | _ | _
  · rcases lt_trichotomy q 0 with hq | hq | hq
    · simp [bnIsPositive, bnGt, bnZero, not_le.mpr hq, not_lt.mpr hq.le]
    · subst hq
      rcases lt_or_le ida 0 with hida | hida
      · simp [bnIsPositive, bnGt, bnZero, hida, not_le.mpr hida]
      · simp [bnIsPositive, bnGt, bnZero, not_lt.mpr hida]
    · simp [bnIsPositive, bnGt, bnZero, hq.le, hq]
      split_ifs with h1 h2 h3
      · rw [max_eq_left (sub_nonneg.mpr h3)]
      · rw [max_eq_right (sub_nonpos.mpr (not_le.mp h3).le)]
      · rfl
      · rfl
  · simp [bnIsPositive, bnGt, bnZero]
    split_ifs with h1 h2
    · rw [max_eq_left (sub_nonneg.mpr h2)]
    · rw [max_eq_right (sub_nonpos.mpr (not_le.mp h2).le)]
    · rfl
  · simp [bnIsPositive, bnGt, bnZero]
  · simp [bnIsPositive, bnGt, bnZero]

/-- C5 counterexample: with debt 0, ratio 1, payback 5, price 1, collateral
10 and a zero debt ceiling, the uncapped yield 10 exceeds the ceiling 0; the
ceiling is not positive, so the claim demands zero, but the sign-based guard
accepts the zero ceiling and the code returns `0 + 5 - 0 = 5`. -/
theorem daiYieldFromCollateral_zero_ceiling_cex :
    calculateDaiYieldFromCollateral 0 1 none (some 5) 1 10 0 = BN.fin 5 ∧
    BN.fin (5:ℚ) ≠ bnZero := by
  constructor
  · simp only [calculateDaiYieldFromCollateral, bnIsPositive, bnGt, bnMul, bnDiv, bnSub,
      bnAdd, bnNeg, bnZero]
    norm_num
  · simp only [bnZero, ne_eq, BN.fin.injEq]
    norm_num

/-! ## C3: the maximum withdraw amount -/

/-- In `calculateMaxWithdrawAmount` the recomputed debt uses only the payback
amount: zero when paying back all, else `debt - payback` clamped at zero. -/
lemma calculateAfterDebt_payback_eq (spa : Bool) (pay : Option ℚ) (debt : ℚ) :
    calculateAfterDebt spa none pay debt = if spa then 0 else max (debt - pay.getD 0) 0 := by
  cases spa
  · simp only [calculateAfterDebt, Bool.false_eq_true, if_false]
    cases pay with
    | none =>
        rw [ite_nonneg_eq_max]
        simp
    | some p =>
        rw [ite_nonneg_eq_max]
        simp
  · simp [calculateAfterDebt]

/-- With a non-negative `debtOffset` the per-price withdraw bound of the code
coincides with the spec-side formula (both positivity guards pass, since the
after-payback debt is clamped non-negative). -/
lemma calculateMaxWithdrawAmount_eq_spec (pay : Option ℚ) (spa : Bool)
    (lc debt off lr p : ℚ) (hoff : 0 ≤ off) :
    calculateMaxWithdrawAmount pay spa lc debt off lr p =
      specMaxWithdrawAmount pay spa lc debt off lr p := by
  have had : 0 ≤ calculateAfterDebt spa none pay debt := calculateAfterDebt_nonneg _ _ _ _
  have e1 : bnIsPositive (BN.fin (calculateAfterDebt spa none pay debt)) = true := by
    simp [bnIsPositive, had]
  have e2 : bnIsPositive (BN.fin (calculateAfterDebt spa none pay debt + off)) = true := by
    simp only [bnIsPositive, decide_eq_true_eq]
    exact add_nonneg had hoff
  simp only [calculateMaxWithdrawAmount, e1, if_true, calculateAfterBackingCollateral, e2,
    Bool.not_true, Bool.false_eq_true, if_false, specMaxWithdrawAmount,
    calculateAfterFreeCollateral, ← calculateAfterDebt_payback_eq]

/-- C3 (amended): for every input state with a non-negative `debtOffset`,
`maxWithdrawAmount` is the minimum of the two per-price bounds, and each
per-price bound is the free collateral left after backing the after-payback
debt inflated by `debtOffset` at the liquidation ratio and that price,
clamped at zero.  (The inflated-debt backing requirement is replaced by zero
when the inflated debt is negative, which the non-negative offset rules
out.) -/
theorem maxWithdrawAmount_spec (s : ManageVaultState) (hoff : 0 ≤ s.debtOffset) :
    (applyManageVaultCalculations s).maxWithdrawAmount =
      bnMin (applyManageVaultCalculations s).maxWithdrawAmountAtCurrentPrice
        (applyManageVaultCalculations s).maxWithdrawAmountAtNextPrice ∧
    (applyManageVaultCalculations s).maxWithdrawAmountAtCurrentPrice =
      specMaxWithdrawAmount s.paybackAmount
        (determineShouldPaybackAll s.paybackAmount s.debt s.debtOffset s.daiBalance)
        s.lockedCollateral s.debt s.debtOffset s.liquidationRatio
        s.currentCollateralPrice ∧
    (applyManageVaultCalculations s).maxWithdrawAmountAtNextPrice =
      specMaxWithdrawAmount s.paybackAmount
        (determineShouldPaybackAll s.paybackAmount s.debt s.debtOffset s.daiBalance)
        s.lockedCollateral s.debt s.debtOffset s.liquidationRatio
        s.nextCollateralPrice := by
  refine ⟨?_, ?_, ?_⟩
  · simp only [applyManageVaultCalculations]
  · simp only [applyManageVaultCalculations]
    exact calculateMaxWithdrawAmount_eq_spec _ _ _ _ _ _ _ hoff
  · simp only [applyManageVaultCalculations]
    exact calculateMaxWithdrawAmount_eq_spec _ _ _ _ _ _ _ hoff

/-- C3 witness: on `stateWithdraw` (locked 10, debt 5, payback 1, offset 1,
ratio 1.5, price 1) the current-price bound is `10 - 5*1.5 = 2.5`. -/
theorem maxWithdrawAmount_spec_witness :
    (applyManageVaultCalculations stateWithdraw).maxWithdrawAmountAtCurrentPrice =
      BN.fin (5/2) := by
  have h := maxWithdrawAmount_spec stateWithdraw (by norm_num [stateWithdraw])
  rw [h.2.1]
  norm_num [specMaxWithdrawAmount, stateWithdraw, determineShouldPaybackAll, bnIsPositive,
    bnGte, bnGt, bnMul, bnDiv, bnSub, bnAdd, bnNeg, bnZero, PAYBACK_ALL_BOUND]

/-- C3 counterexample: with a negative `debtOffset` (-6, `stateNegOffset`)
the code suppresses the backing requirement (the inflated debt -6 fails the
sign check) and returns 10, while the claimed formula yields 16, so the claim
fails as a statement over every input state. -/
theorem maxWithdrawAmount_negOffset_cex :
    (applyManageVaultCalculations stateNegOffset).maxWithdrawAmountAtCurrentPrice =
      BN.fin 10 ∧
    specMaxWithdrawAmount stateNegOffset.paybackAmount
      (determineShouldPaybackAll stateNegOffset.paybackAmount stateNegOffset.debt
        stateNegOffset.debtOffset stateNegOffset.daiBalance)
      stateNegOffset.lockedCollateral stateNegOffset.debt stateNegOffset.debtOffset
      stateNegOffset.liquidationRatio stateNegOffset.currentCollateralPrice = BN.fin 16 ∧
    BN.fin (10:ℚ) ≠ BN.fin (16:ℚ) := by
  refine ⟨?_, ?_, ?_⟩
  · simp only [applyManageVaultCalculations, determineShouldPaybackAll,
      calculateAfterLockedCollateral, calculateAfterDebt, calculateAfterBackingCollateral,
      calculateAfterFreeCollateral, calculateMaxWithdrawAmount, calculateDaiYieldFromCollateral,
      calculateMaxGenerateAmount, bnIsPositive, bnGte, bnGt, bnLt, bnMul, bnDiv, bnAdd, bnSub,
      bnNeg, bnMin, bnZero, bnIsNaN, stateNegOffset, PAYBACK_ALL_BOUND]
    norm_num
  · norm_num [specMaxWithdrawAmount, stateNegOffset, determineShouldPaybackAll, bnIsPositive,
      bnGte, bnGt, bnMul, bnDiv, bnSub, bnAdd, bnNeg, bnZero, PAYBACK_ALL_BOUND]
  · simp only [ne_eq, BN.fin.injEq]
    norm_num

/-! ## C4: totality and guardedness -/

/-- The minimum of two finite values is finite. -/
lemma bnIsFinite_min {a b : BN} (ha : bnIsFinite a = true) (hb : bnIsFinite b = true) :
    bnIsFinite (bnMin a b) = true := by
  rcases a with q | _ | _ | _
  · rcases b with r | _ | _ | _
    · simp only [bnMin, bnIsNaN, Bool.or_self, Bool.false_eq_true, if_false]
      split <;> rfl
    · exact absurd hb (by simp [bnIsFinite])
    · exact absurd hb (by simp [bnIsFinite])
    · exact absurd hb (by simp [bnIsFinite])
  · exact absurd ha (by simp [bnIsFinite])
  · exact absurd ha (by simp [bnIsFinite])
  · exact absurd ha (by simp [bnIsFinite])

/-- A finite value times a finite value is finite. -/
lemma bnIsFinite_mul_fin {a : BN} (x : ℚ) (ha : bnIsFinite a = true) :
    bnIsFinite (bnMul a (BN.fin x)) = true := by
  rcases a with q | _ | _ | _ <;> simp_all [bnMul, bnIsFinite]

/-- The free collateral over a finite backing collateral is finite. -/
lemma bnIsFinite_free (lc : ℚ) {b : BN} (hb : bnIsFinite b = true) :
    bnIsFinite (calculateAfterFreeCollateral lc b) = true := by
  rcases b with q | _ | _ | _
  · simp only [calculateAfterFreeCollateral, bnSub, bnNeg, bnAdd]
    split <;> rfl
  · exact absurd hb (by simp [bnIsFinite])
  · exact absurd hb (by simp [bnIsFinite])
  · exact absurd hb (by simp [bnIsFinite])

/-- With a non-zero price the backing collateral is finite. -/
lemma bnIsFinite_backing (ad lr p : ℚ) (hp : p ≠ 0) :
    bnIsFinite (calculateAfterBackingCollateral ad lr p) = true := by
  simp only [calculateAfterBackingCollateral]
  split
  · rfl
  · simp [bnMul, bnDiv, bnIsFinite, hp]

/-- With a non-zero price the per-price withdraw bound is finite. -/
lemma bnIsFinite_maxWithdraw (pay : Option ℚ) (spa : Bool) (lc debt off lr p : ℚ)
    (hp : p ≠ 0) :
    bnIsFinite (calculateMaxWithdrawAmount pay spa lc debt off lr p) = true := by
  simp only [calculateMaxWithdrawAmount]
  exact bnIsFinite_free _ (bnIsFinite_backing _ _ _ hp)

/-- With a non-zero liquidation ratio the dai yield is finite. -/
lemma bnIsFinite_daiYield (debt lr : ℚ) (gen pay : Option ℚ) (price c ida : ℚ)
    (hlr : lr ≠ 0) :
    bnIsFinite (calculateDaiYieldFromCollateral debt lr gen pay price c ida) = true := by
  simp only [calculateDaiYieldFromCollateral, bnMul, bnDiv, bnSub, bnNeg, bnAdd, if_neg hlr]
  split
  · rfl
  · split
    · split
      · split <;> rfl
      · rfl
    · rfl

/-- With a non-zero liquidation ratio the per-price generate bound is finite. -/
lemma bnIsFinite_maxGenerate (dep gen : Option ℚ) (debt off lc lr p ida : ℚ)
    (hlr : lr ≠ 0) :
    bnIsFinite (calculateMaxGenerateAmount dep gen debt off lc lr p ida) = true := by
  simp only [calculateMaxGenerateAmount]
  exact bnIsFinite_daiYield _ _ _ _ _ _ _ hlr

/-- C4 (amended): `applyManageVaultCalculations` is a total function; on any
state whose liquidation ratio and prices are positive and whose projected
debt and locked collateral are positive, every numeric field of the
projection is a finite value (no division produces Infinity or NaN).  The
divisions are not all guarded by strict positivity checks: the sign-based
guards accept zero operands, so outside these hypotheses a zero divisor can
reach a division and yield Infinity or NaN rather than the claimed zero. -/
theorem applyManageVaultCalculations_finite (s : ManageVaultState)
    (hlr : 0 < s.liquidationRatio) (hpc : 0 < s.currentCollateralPrice)
    (hpn : 0 < s.nextCollateralPrice)
    (had : 0 < calculateAfterDebt
      (determineShouldPaybackAll s.paybackAmount s.debt s.debtOffset s.daiBalance)
      s.generateAmount s.paybackAmount s.debt)
    (haLC : 0 < calculateAfterLockedCollateral s.lockedCollateral s.depositAmount
      s.withdrawAmount) :
    bnIsFinite (applyManageVaultCalculations s).maxDepositAmount = true ∧
    bnIsFinite (applyManageVaultCalculations s).maxDepositAmountUSD = true ∧
    bnIsFinite (applyManageVaultCalculations s).maxWithdrawAmountAtCurrentPrice = true ∧
    bnIsFinite (applyManageVaultCalculations s).maxWithdrawAmountAtNextPrice = true ∧
    bnIsFinite (applyManageVaultCalculations s).maxWithdrawAmount = true ∧
    bnIsFinite (applyManageVaultCalculations s).maxWithdrawAmountUSD = true ∧
    bnIsFinite (applyManageVaultCalculations s).maxGenerateAmount = true ∧
    bnIsFinite (applyManageVaultCalculations s).maxGenerateAmountAtCurrentPrice = true ∧
    bnIsFinite (applyManageVaultCalculations s).maxGenerateAmountAtNextPrice = true ∧
    bnIsFinite (applyManageVaultCalculations s).maxPaybackAmount = true ∧
    bnIsFinite (applyManageVaultCalculations s).daiYieldFromTotalCollateral = true ∧
    bnIsFinite (applyManageVaultCalculations s).daiYieldFromTotalCollateralAtNextPrice
      = true ∧
    bnIsFinite (applyManageVaultCalculations s).afterDebt = true ∧
    bnIsFinite (applyManageVaultCalculations s).afterLiquidationPrice = true ∧
    bnIsFinite (applyManageVaultCalculations s).afterCollateralizationRatio = true ∧
    bnIsFinite (applyManageVaultCalculations s).afterCollateralizationRatioAtNextPrice
      = true ∧
    bnIsFinite (applyManageVaultCalculations s).afterFreeCollateral = true ∧
    bnIsFinite (applyManageVaultCalculations s).afterFreeCollateralAtNextPrice = true ∧
    bnIsFinite (applyManageVaultCalculations s).afterBackingCollateral = true ∧
    bnIsFinite (applyManageVaultCalculations s).afterBackingCollateralAtNextPrice = true ∧
    bnIsFinite (applyManageVaultCalculations s).afterLockedCollateral = true := by
  simp only [applyManageVaultCalculations]
  refine ⟨rfl, rfl, bnIsFinite_maxWithdraw _ _ _ _ _ _ _ hpc.ne',
    bnIsFinite_maxWithdraw _ _ _ _ _ _ _ hpn.ne',
    bnIsFinite_min (bnIsFinite_maxWithdraw _ _ _ _ _ _ _ hpc.ne')
      (bnIsFinite_maxWithdraw _ _ _ _ _ _ _ hpn.ne'),
    bnIsFinite_mul_fin _ (bnIsFinite_min (bnIsFinite_maxWithdraw _ _ _ _ _ _ _ hpc.ne')
      (bnIsFinite_maxWithdraw _ _ _ _ _ _ _ hpn.ne')),
    bnIsFinite_min (bnIsFinite_maxGenerate _ _ _ _ _ _ _ _ hlr.ne')
      (bnIsFinite_maxGenerate _ _ _ _ _ _ _ _ hlr.ne'),
    bnIsFinite_maxGenerate _ _ _ _ _ _ _ _ hlr.ne',
    bnIsFinite_maxGenerate _ _ _ _ _ _ _ _ hlr.ne', ?_,
    bnIsFinite_daiYield _ _ _ _ _ _ _ hlr.ne',
    bnIsFinite_daiYield _ _ _ _ _ _ _ hlr.ne', rfl, ?_, ?_, ?_,
    bnIsFinite_free _ (bnIsFinite_backing _ _ _ hpc.ne'),
    bnIsFinite_free _ (bnIsFinite_backing _ _ _ hpn.ne'),
    bnIsFinite_backing _ _ _ hpc.ne', bnIsFinite_backing _ _ _ hpn.ne', rfl⟩
  · split <;> rfl
  · split
    · simp [bnMul, bnDiv, bnIsFinite, haLC.ne']
    · rfl
  · split
    · simp [bnDiv, bnIsFinite, had.ne']
    · rfl
  · split
    · simp [bnDiv, bnIsFinite, had.ne']
    · rfl

/-- C4 witness: the finiteness theorem applied to `stateBenign`. -/
theorem applyManageVaultCalculations_finite_witness :
    bnIsFinite (applyManageVaultCalculations stateBenign).afterLiquidationPrice = true ∧
    bnIsFinite (applyManageVaultCalculations stateBenign).afterCollateralizationRatio
      = true := by
  have h := applyManageVaultCalculations_finite stateBenign
    (by norm_num [stateBenign]) (by norm_num [stateBenign]) (by norm_num [stateBenign])
    (by norm_num [calculateAfterDebt, determineShouldPaybackAll, bnIsPositive, bnGte, bnGt,
      stateBenign, PAYBACK_ALL_BOUND])
    (by norm_num [calculateAfterLockedCollateral, stateBenign])
  exact ⟨h.2.2.2.2.2.2.2.2.2.2.2.2.2.1, h.2.2.2.2.2.2.2.2.2.2.2.2.2.2.1⟩

/-- C4 counterexample: on an empty vault (no collateral, no debt, ratio 1.5,
price 1) the guards pass with zero operands and both `afterLiquidationPrice`
and `afterCollateralizationRatio` evaluate to `0/0 = NaN`, not to the zero
the claim promises for undefined cases. -/
theorem applyManageVaultCalculations_nan_cex :
    (applyManageVaultCalculations stateEmptyVault).afterLiquidationPrice = BN.nan ∧
    (applyManageVaultCalculations stateEmptyVault).afterCollateralizationRatio = BN.nan := by
  constructor <;>
  · simp only [applyManageVaultCalculations, determineShouldPaybackAll,
      calculateAfterLockedCollateral, calculateAfterDebt, calculateAfterBackingCollateral,
      calculateAfterFreeCollateral, calculateMaxWithdrawAmount, calculateDaiYieldFromCollateral,
      calculateMaxGenerateAmount, bnIsPositive, bnTimesIsPositive, bnGte, bnGt, bnLt, bnMul,
      bnDiv, bnAdd, bnSub, bnNeg, bnMin, bnZero, bnIsNaN, stateEmptyVault, PAYBACK_ALL_BOUND]
    norm_num

/-! ## C9 and C6: the transaction manager -/

/-- C9: `compareTransactions` always returns a comparison result; the three
cases (same done-status, first done and second not, first not done and
second done) are exhaustive, so the contradictory-ordering throw branch is
unreachable. -/
theorem compareTransactions_total (t1 t2 : TxMgrTransaction) :
    ∃ n, compareTransactions t1 t2 = Except.ok n := by
  simp only [compareTransactions]
  rcases h1 : isTxDone t1 <;> rcases h2 : isTxDone t2 <;> simp

/-- The time-based loop keeps an existing selection over a bucket with no
expired transaction. -/
lemma selectTimedNotification_keep (now : ℤ) (l : List TxMgrTransaction)
    (t : TxMgrTransaction) (h : ∀ x ∈ l, ¬ x.lastChange + 10000 < now) :
    l.foldl (notificationStep now) (some t) = some t := by
  induction l with
  | nil => rfl
  | cons a l ih =>
      have ha : ¬ a.lastChange + 10000 < now := h a (List.mem_cons_self a l)
      have step : notificationStep now (some t) a = some t := by
        simp [notificationStep, ha]
      rw [List.foldl_cons, step]
      exact ih (fun x hx => h x (List.mem_cons_of_mem a hx))

/-- Over a bucket of recent transactions only, the loop selects the first
one. -/
lemma selectTimedNotification_all_recent (now : ℤ) (l : List TxMgrTransaction)
    (h : ∀ x ∈ l, now < x.lastChange + 10000) :
    selectTimedNotification now l = l.head? := by
  cases l with
  | nil => rfl
  | cons a l =>
      have ha : now < a.lastChange + 10000 := h a (List.mem_cons_self a l)
      simp only [selectTimedNotification, List.foldl_cons]
      have step : notificationStep now none a = some a := by
        simp [notificationStep, ha]
      rw [step, List.head?_cons]
      exact selectTimedNotification_keep now l a
        (fun x hx => not_lt.mpr (by linarith [h x (List.mem_cons_of_mem a hx)]))

/-- Over a bucket of expired transactions only, the loop selects nothing. -/
lemma selectTimedNotification_all_expired (now : ℤ) (l : List TxMgrTransaction)
    (h : ∀ x ∈ l, x.lastChange + 10000 < now) :
    selectTimedNotification now l = none := by
  induction l with
  | nil => rfl
  | cons a l ih =>
      have ha : a.lastChange + 10000 < now := h a (List.mem_cons_self a l)
      simp only [selectTimedNotification, List.foldl_cons]
      have step : notificationStep now none a = none := by
        simp [notificationStep, not_lt.mpr ha.le]
      rw [step]
      exact ih (fun x hx => h x (List.mem_cons_of_mem a hx))

/-- Whatever the loop returns either was the starting accumulator or is a
recent member of the bucket. -/
lemma selectTimedNotification_foldl_mem (now : ℤ) (l : List TxMgrTransaction) :
    ∀ (acc : Option TxMgrTransaction) (t : TxMgrTransaction),
      l.foldl (notificationStep now) acc = some t →
      acc = some t ∨ (t ∈ l ∧ now < t.lastChange + 10000) := by
  induction l with
  | nil => intro acc t h; exact Or.inl h
  | cons a l ih =>
      intro acc t h
      rw [List.foldl_cons] at h
      rcases ih (notificationStep now acc a) t h with h1 | h1
      · simp only [notificationStep] at h1
        split at h1
        · next hc =>
            rcases Option.some.inj h1 with rfl
            refine Or.inr ⟨List.mem_cons_self a l, ?_⟩
            have := (Bool.and_eq_true _ _).mp hc
            exact of_decide_eq_true this.2
        · split at h1
          · exact absurd h1 (by simp)
          · exact Or.inl h1
      · exact Or.inr ⟨List.mem_cons_of_mem a h1.1, h1.2⟩

/-- A transaction selected by the time-based loop belongs to the bucket and
is recent (its 10-second window is open). -/
lemma selectTimedNotification_mem (now : ℤ) (l : List TxMgrTransaction)
    (t : TxMgrTransaction) (h : selectTimedNotification now l = some t) :
    t ∈ l ∧ now < t.lastChange + 10000 := by
  rcases selectTimedNotification_foldl_mem now l none t h with h1 | h1
  · exact absurd h1 (by simp)
  · exact h1

/-- An error status belongs to no other bucket. -/
lemma isErrorStatus_excl (st : TxSt) (h : isErrorStatus st = true) :
    isSignStatus st = false ∧ isSubmittedStatus st = false ∧
      isSuccessStatus st = false := by
  cases st <;> simp_all [isErrorStatus, isSignStatus, isSubmittedStatus, isSuccessStatus]

/-- An awaiting-signature status is neither an error nor a success status. -/
lemma isSignStatus_excl (st : TxSt) (h : isSignStatus st = true) :
    isErrorStatus st = false ∧ isSuccessStatus st = false := by
  cases st <;> simp_all [isErrorStatus, isSignStatus, isSuccessStatus]

/-- A submitted status is neither an error nor a success status. -/
lemma isSubmittedStatus_excl (st : TxSt) (h : isSubmittedStatus st = true) :
    isErrorStatus st = false ∧ isSuccessStatus st = false := by
  cases st <;> simp_all [isErrorStatus, isSubmittedStatus, isSuccessStatus]

/-- C6 (amended): the notification selection follows the priority order
awaiting-signature > recent error > recent success > submitted, with the
proviso that the error (resp. success) tier yields its first transaction
only when the tier contains no expired transaction after a recent one — an
expired transaction encountered while a selection is held cancels the whole
tier.  In detail: an awaiting-signature transaction is always selected
first; with no sign transaction and an all-recent error bucket its head is
selected; with all errors expired and an all-recent success bucket its head
is selected; with both timed tiers expired the first submitted transaction
is selected; with nothing left the selection is empty; an error or success
transaction whose 10-second window has elapsed is never selected; and the
head of a descending-sorted error bucket has the maximal lastChange
(tie-break by recency). -/
theorem notificationSelection_priority (now : ℤ) (txs : List TxMgrTransaction) :
    (∀ t rest, signTransactionsOf txs = t :: rest →
      (filterTransactions now txs).notificationTransaction = some (t, true)) ∧
    (signTransactionsOf txs = [] →
      ∀ t rest, errorTransactionsOf txs = t :: rest →
      (∀ x ∈ errorTransactionsOf txs, now < x.lastChange + 10000) →
      (filterTransactions now txs).notificationTransaction = some (t, true)) ∧
    (signTransactionsOf txs = [] →
      (∀ x ∈ errorTransactionsOf txs, x.lastChange + 10000 < now) →
      ∀ t rest, successTransactionsOf txs = t :: rest →
      (∀ x ∈ successTransactionsOf txs, now < x.lastChange + 10000) →
      (filterTransactions now txs).notificationTransaction = some (t, true)) ∧
    (signTransactionsOf txs = [] →
      (∀ x ∈ errorTransactionsOf txs, x.lastChange + 10000 < now) →
      (∀ x ∈ successTransactionsOf txs, x.lastChange + 10000 < now) →
      ∀ t rest, submittedTransactionsOf txs = t :: rest →
      (filterTransactions now txs).notificationTransaction =
        some (t, decide (now < t.lastChange + 10000))) ∧
    (signTransactionsOf txs = [] →
      (∀ x ∈ errorTransactionsOf txs, x.lastChange + 10000 < now) →
      (∀ x ∈ successTransactionsOf txs, x.lastChange + 10000 < now) →
      submittedTransactionsOf txs = [] →
      (filterTransactions now txs).notificationTransaction = none) ∧
    (∀ t b, (filterTransactions now txs).notificationTransaction = some (t, b) →
      (isErrorStatus t.status || isSuccessStatus t.status) = true →
      now < t.lastChange + 10000) ∧
    (∀ t rest, errorTransactionsOf txs = t :: rest →
      List.Pairwise (fun a b => b.lastChange ≤ a.lastChange) (errorTransactionsOf txs) →
      ∀ x ∈ errorTransactionsOf txs, x.lastChange ≤ t.lastChange) := by
  refine ⟨?_, ?_, ?_, ?_, ?_, ?_, ?_⟩
  · intro t rest hsign
    simp only [filterTransactions, hsign]
  · intro hsign t rest herr hrec
    have hsel : selectTimedNotification now (errorTransactionsOf txs) = some t := by
      rw [selectTimedNotification_all_recent now _ hrec, herr, List.head?_cons]
    simp only [filterTransactions, hsign, hsel, Option.map_some']
  · intro hsign hexp t rest hsucc hrec
    have hsel2 : selectTimedNotification now (successTransactionsOf txs) = some t := by
      rw [selectTimedNotification_all_recent now _ hrec, hsucc, List.head?_cons]
    simp only [filterTransactions, hsign,
      selectTimedNotification_all_expired now _ hexp, Option.map_none', hsel2,
      Option.map_some']
  · intro hsign hexp hsexp t rest hsub
    simp only [filterTransactions, hsign,
      selectTimedNotification_all_expired now _ hexp,
      selectTimedNotification_all_expired now _ hsexp, Option.map_none', hsub]
  · intro hsign hexp hsexp hsub
    simp only [filterTransactions, hsign,
      selectTimedNotification_all_expired now _ hexp,
      selectTimedNotification_all_expired now _ hsexp, Option.map_none', hsub]
  · intro t b hnotif hstat
    rcases hsign : signTransactionsOf txs with _ | ⟨a, rest⟩
    · rcases hsel : selectTimedNotification now (errorTransactionsOf txs) with _ | e
      · rcases hsel2 : selectTimedNotification now (successTransactionsOf txs) with _ | e2
        · rcases hsub : submittedTransactionsOf txs with _ | ⟨a2, rest2⟩
          · simp only [filterTransactions, hsign, hsel, hsel2, Option.map_none', hsub]
              at hnotif
            simp at hnotif
          · simp only [filterTransactions, hsign, hsel, hsel2, Option.map_none', hsub]
              at hnotif
            have ht : a2 = t := congrArg Prod.fst (Option.some.inj hnotif)
            subst ht
            have hmem : a2 ∈ submittedTransactionsOf txs := by
              rw [hsub]
              exact List.mem_cons_self _ _
            have hstat2 : isSubmittedStatus a2.status = true :=
              (List.mem_filter.mp hmem).2
            rcases isSubmittedStatus_excl a2.status hstat2 with ⟨he, hs⟩
            rw [he, hs] at hstat
            simp at hstat
        · simp only [filterTransactions, hsign, hsel, hsel2, Option.map_some'] at hnotif
          have ht : e2 = t := congrArg Prod.fst (Option.some.inj hnotif)
          subst ht
          exact (selectTimedNotification_mem now _ _ hsel2).2
      · simp only [filterTransactions, hsign, hsel, Option.map_some'] at hnotif
        have ht : e = t := congrArg Prod.fst (Option.some.inj hnotif)
        subst ht
        exact (selectTimedNotification_mem now _ _ hsel).2
    · simp only [filterTransactions, hsign] at hnotif
      have ht : a = t := congrArg Prod.fst (Option.some.inj hnotif)
      subst ht
      have hmem : a ∈ signTransactionsOf txs := by
        rw [hsign]
        exact List.mem_cons_self _ _
      have hstat2 : isSignStatus a.status = true := (List.mem_filter.mp hmem).2
      rcases isSignStatus_excl a.status hstat2 with ⟨he, hs⟩
      rw [he, hs] at hstat
      simp at hstat
  · intro t rest herr hpair x hx
    rw [herr] at hpair hx
    rcases List.mem_cons.mp hx with rfl | hx2
    · exact le_refl _
    · exact (List.pairwise_cons.mp hpair).1 x hx2

/-- C6 witness: a single recent error transaction is selected; a single
expired error transaction alone yields an empty selection. -/
theorem notificationSelection_priority_witness :
    (filterTransactions exNow [txErrRecent]).notificationTransaction =
      some (txErrRecent, true) ∧
    (filterTransactions exNow [txErrExpired]).notificationTransaction = none := by
  constructor
  · exact (notificationSelection_priority exNow [txErrRecent]).2.1 rfl txErrRecent [] rfl
      (by decide)
  · exact (notificationSelection_priority exNow [txErrExpired]).2.2.2.2.1 rfl (by decide)
      (by decide) rfl

/-- C6 counterexample: with a pending transaction, a recent error (5 s old)
and an expired error (20 s old), in the order produced by
`compareTransactions` (not-done first, then descending lastChange), the
expired error cancels the selected recent error and the pending transaction
is selected — the claimed strict priority order would select the recent
error. -/
theorem notificationSelection_priority_cex :
    compareTransactions txPending txErrRecent = Except.ok (-1) ∧
    compareTransactions txPending txErrExpired = Except.ok (-1) ∧
    compareTransactions txErrRecent txErrExpired = Except.ok (-15000) ∧
    isErrorStatus txErrRecent.status = true ∧
    exNow < txErrRecent.lastChange + 10000 ∧
    isSubmittedStatus txPending.status = true ∧
    (filterTransactions exNow
        [txPending, txErrRecent, txErrExpired]).notificationTransaction =
      some (txPending, true) := by
  refine ⟨rfl, rfl, rfl, rfl, by decide, rfl, ?_⟩
  rfl
